import Mathlib

/-!
Verification of the configuration header `src/display/User_Setup.h` of the
home-dash repository.  The header is a flat list of C-preprocessor lines; we
embed it as the literal list of its 46 source lines together with a small
lexer for the `#define` directives it contains, and prove the specification
claims about the resulting set of active macro definitions.
-/

namespace UserSetup

/-- The value part of a `#define` directive: absent (a bare flag), an integer
literal, a string literal, or an identifier token. -/
inductive MacroValue where
  | flag : MacroValue
  | int : Int → MacroValue
  | str : String → MacroValue
  | ident : String → MacroValue
deriving DecidableEq

/-- Drop leading space and tab characters. -/
def dropSpaces : List Char → List Char
  | c :: cs => if c = ' ' ∨ c = '\t' then dropSpaces cs else c :: cs
  | [] => []

/-- A character that may appear in a C identifier. -/
def identChar (c : Char) : Bool := c.isAlpha || c.isDigit || c = '_'

/-- Split off the longest leading run of identifier characters. -/
def takeIdentChars : List Char → List Char × List Char
  | c :: cs =>
      if identChar c then
        let (i, r) := takeIdentChars cs
        (c :: i, r)
      else ([], c :: cs)
  | [] => ([], [])

/-- Read a leading run of decimal digits, accumulating their value. -/
def readNatAux (acc : Nat) : List Char → Nat × List Char
  | c :: cs =>
      if c.isDigit then readNatAux (acc * 10 + (c.toNat - '0'.toNat)) cs
      else (acc, c :: cs)
  | [] => (acc, [])

/-- The characters of a string literal body, up to the closing quote. -/
def takeUntilQuote : List Char → List Char
  | c :: cs => if c = '\"' then [] else c :: takeUntilQuote cs
  | [] => []

/-- Lex the replacement token of a `#define` line: nothing (or only a trailing
line comment) yields a bare flag; otherwise a string literal, a possibly
negated integer literal, or an identifier. -/
def parseValueToken (cs : List Char) : MacroValue :=
  match dropSpaces cs with
  | [] => .flag
  | '/' :: '/' :: _ => .flag
  | '\"' :: rest => .str (String.mk (takeUntilQuote rest))
  | '-' :: rest =>
      let (n, _) := readNatAux 0 rest
      .int (-(n : Int))
  | c :: rest =>
      if c.isDigit then
        let (n, _) := readNatAux 0 (c :: rest)
        .int (n : Int)
      else
        let (i, _) := takeIdentChars (c :: rest)
        .ident (String.mk i)

/-- `true` when the line is empty apart from spaces. -/
def isLineBlank (s : String) : Bool := (dropSpaces s.data).isEmpty

/-- `true` when the line is a `//` line comment (after leading spaces). -/
def isLineComment (s : String) : Bool :=
  match dropSpaces s.data with
  | '/' :: '/' :: _ => true
  | _ => false

/-- `true` when the line is a preprocessor directive, i.e. its first
non-space character is `#`. -/
def isDirective (s : String) : Bool :=
  match dropSpaces s.data with
  | '#' :: _ => true
  | _ => false

/-- The keyword of a preprocessor directive line (`define`, `ifdef`, …),
or `none` when the line is not a directive. -/
def directiveKeyword (s : String) : Option String :=
  match dropSpaces s.data with
  | '#' :: rest => some (String.mk (takeIdentChars (dropSpaces rest)).1)
  | _ => none

/-- Parse a line as a `#define NAME VALUE?` directive.  Commented-out lines
start with `//` and therefore do not parse. -/
def parseDefine (s : String) : Option (String × MacroValue) :=
  match dropSpaces s.data with
  | '#' :: rest =>
      let (kw, rest2) := takeIdentChars (dropSpaces rest)
      if String.mk kw = "define" then
        let (name, rest3) := takeIdentChars (dropSpaces rest2)
        if name.isEmpty then none else some (String.mk name, parseValueToken rest3)
      else none
  | _ => none

/-- The 46 lines of `src/display/User_Setup.h`, transcribed verbatim. -/
def userSetupLines : List String := [
  "//                            USER DEFINED SETTINGS",
  "//   Set driver type, fonts to be loaded, pins used and SPI control method etc.",
  "//",
  "//   See the User_Setup_Select.h file if you wish to be able to define multiple",
  "//   setups and then easily select which setup file is used by the compiler.",
  "//",
  "//   If this file is edited correctly then all the library example sketches should",
  "//   run without the need to make any more changes for a particular hardware setup!",
  "//   Note that some sketches are designed for a particular TFT pixel width/height",
  "",
  "// Define to disable all #warnings in library (can be put in User_Setup_Select.h)",
  "//#define DISABLE_ALL_LIBRARY_WARNINGS",
  "",
  "// ##################################################################################",
  "//",
  "// Section 1. Call up the right driver file and any options for it",
  "//",
  "// ##################################################################################",
  "",
  "// === BatController (ST7735S 160x128) ===",
  "#define USER_SETUP_INFO \"BatController ST7735 160x128\"",
  "",
  "#define ST7735_DRIVER",
  "#define TFT_WIDTH   128",
  "#define TFT_HEIGHT  160",
  "",
  "#define LOAD_GLCD    // Font 1 (classic 8x6) - always good to have",
  "#define LOAD_FONT2   // Font 2 (small 16px) - what we\x27re using in the sketch",
  "",
  "// pick ONE tab; GREENTAB is common for 160x128",
  "// #define ST7735_GREENTAB",
  "#define ST7735_BLACKTAB",
  "// #define ST7735_REDTAB",
  "",
  "// 👇 THIS is the key line for your colors:",
  "#define TFT_RGB_ORDER TFT_BGR",
  "",
  "// (keep your working pins)",
  "#define TFT_MOSI 21",
  "#define TFT_SCLK 22",
  "#define TFT_CS   -1",
  "#define TFT_DC    5",
  "#define TFT_RST  17",
  "#define TFT_BL    0",
  "",
  "#define SPI_FREQUENCY 27000000"
]

/-- The active (non-commented) macro definitions of the file, in order. -/
def activeDefines : List (String × MacroValue) :=
  userSetupLines.filterMap parseDefine

/-- The first active definition of a macro name, if any. -/
def lookupDefine (name : String) : Option MacroValue :=
  (activeDefines.find? (fun p => p.1 == name)).map Prod.snd

/-- Whether the file actively defines the given macro name. -/
def isDefined (name : String) : Bool := (lookupDefine name).isSome

/-- The integer value of a macro, when it is defined with an integer. -/
def intDefine (name : String) : Option Int :=
  match lookupDefine name with
  | some (.int v) => some v
  | _ => none

/-- The six pin-assignment macro names. -/
def pinNames : List String :=
  ["TFT_MOSI", "TFT_SCLK", "TFT_CS", "TFT_DC", "TFT_RST", "TFT_BL"]

/-- A pin value is valid when it is a GPIO number `≥ 0` or the sentinel
`-1` meaning "not connected". -/
def validPinValue : Option Int → Bool
  | some v => decide (0 ≤ v) || decide (v = -1)
  | none => false

/-- A macro name selects a display driver when it ends in `_DRIVER`. -/
def isDriverFlagName (n : String) : Bool :=
  List.isSuffixOf "_DRIVER".data n.data

/-- The three ST7735 tab-variant calibration flag names. -/
def tabFlagNames : List String :=
  ["ST7735_GREENTAB", "ST7735_BLACKTAB", "ST7735_REDTAB"]

/-- Whether `pat` occurs as a contiguous run inside `s`. -/
def containsChars (pat : List Char) : List Char → Bool
  | [] => pat.isEmpty
  | c :: cs => List.isPrefixOf pat (c :: cs) || containsChars pat cs

/-- The body of the `USER_SETUP_INFO` string, when defined as a string. -/
def infoString : Option String :=
  match lookupDefine "USER_SETUP_INFO" with
  | some (.str s) => some s
  | _ => none

/-- C1: the file defines exactly the six pin-assignment macros `TFT_MOSI`,
`TFT_SCLK`, `TFT_CS`, `TFT_DC`, `TFT_RST`, `TFT_BL`, each with an integer
value that is either a GPIO number `≥ 0` or the sentinel `-1`, and at most
one of the six holds the sentinel `-1`. -/
theorem C1_six_pins_valid_one_sentinel :
    pinNames.length = 6 ∧
    activeDefines.countP (fun p => pinNames.contains p.1) = 6 ∧
    pinNames.all (fun n => validPinValue (intDefine n)) = true ∧
    (pinNames.filterMap intDefine).countP (fun v => v == -1) ≤ 1 := by
  decide

/-- C2: exactly one display-driver selection flag (a macro whose name ends in
`_DRIVER`) is actively defined, and it is `ST7735_DRIVER`, defined as a bare
flag. -/
theorem C2_unique_driver_flag :
    activeDefines.filter (fun p => isDriverFlagName p.1) =
      [("ST7735_DRIVER", MacroValue.flag)] := by
  decide

/-- C3: `TFT_WIDTH` and `TFT_HEIGHT` are both defined, with the positive
integer values 128 and 160 respectively. -/
theorem C3_geometry_positive :
    lookupDefine "TFT_WIDTH" = some (.int 128) ∧
    lookupDefine "TFT_HEIGHT" = some (.int 160) ∧
    (intDefine "TFT_WIDTH").all (fun v => decide (0 < v)) = true ∧
    (intDefine "TFT_HEIGHT").all (fun v => decide (0 < v)) = true := by
  decide

/-- C4: `TFT_RGB_ORDER` is defined, its value is one of the identifiers
`TFT_RGB` and `TFT_BGR`, and in this configuration it is `TFT_BGR`. -/
theorem C4_rgb_order_is_bgr :
    lookupDefine "TFT_RGB_ORDER" = some (.ident "TFT_BGR") ∧
    (lookupDefine "TFT_RGB_ORDER").all
      (fun v => v == .ident "TFT_RGB" || v == .ident "TFT_BGR") = true := by
  decide

/-- C5: among the three tab-variant calibration flags `ST7735_GREENTAB`,
`ST7735_BLACKTAB`, `ST7735_REDTAB`, exactly one is actively defined, namely
`ST7735_BLACKTAB`; the other two are not defined. -/
theorem C5_blacktab_only :
    tabFlagNames.countP isDefined = 1 ∧
    isDefined "ST7735_BLACKTAB" = true ∧
    isDefined "ST7735_GREENTAB" = false ∧
    isDefined "ST7735_REDTAB" = false := by
  decide

/-- C6: `SPI_FREQUENCY` is defined as the single positive integer
27000000 (hertz). -/
theorem C6_spi_frequency :
    lookupDefine "SPI_FREQUENCY" = some (.int 27000000) ∧
    (intDefine "SPI_FREQUENCY").all (fun v => decide (0 < v)) = true := by
  decide

/-- C7: the names of the active `#define` directives of the file are pairwise
distinct, so every macro name is defined at most once by this file (names
occurring only in comments are defined zero times). -/
theorem C7_defines_nodup :
    (activeDefines.map Prod.fst).Nodup := by
  decide

/-- C8: the file has 46 lines; every line is blank, a `//` comment, or an
active `#define` directive; and every preprocessor directive in the file is a
`#define` (no conditional compilation or other directives). -/
theorem C8_flat_defines_only :
    userSetupLines.length = 46 ∧
    userSetupLines.all
      (fun l => isLineBlank l || isLineComment l || (parseDefine l).isSome) = true ∧
    userSetupLines.all
      (fun l => (directiveKeyword l).all (fun k => k == "define")) = true := by
  decide

/-- C9: the connected pin assignments (those whose value is not the sentinel
`-1`) are 21, 22, 5, 17, 0 for `TFT_MOSI`, `TFT_SCLK`, `TFT_DC`, `TFT_RST`,
`TFT_BL`, and they are pairwise distinct. -/
theorem C9_connected_pins_distinct :
    pinNames.filterMap intDefine = [21, 22, -1, 5, 17, 0] ∧
    (pinNames.filterMap intDefine).filter (fun v => v != -1) = [21, 22, 5, 17, 0] ∧
    ((pinNames.filterMap intDefine).filter (fun v => v != -1)).Nodup := by
  decide

/-- C10: the `USER_SETUP_INFO` label is consistent with the configuration: it
is the string "BatController ST7735 160x128", which contains "ST7735"
matching the defined `ST7735_DRIVER` flag and "160x128" matching
`TFT_HEIGHT` = 160 and `TFT_WIDTH` = 128, with the width less than the
height. -/
theorem C10_info_consistent :
    lookupDefine "USER_SETUP_INFO" = some (.str "BatController ST7735 160x128") ∧
    isDefined "ST7735_DRIVER" = true ∧
    infoString.all (fun s => containsChars "ST7735".data s.data) = true ∧
    infoString.all (fun s => containsChars "160x128".data s.data) = true ∧
    lookupDefine "TFT_HEIGHT" = some (.int 160) ∧
    lookupDefine "TFT_WIDTH" = some (.int 128) ∧
    (intDefine "TFT_WIDTH").all
      (fun w => (intDefine "TFT_HEIGHT").all (fun h => decide (w < h))) = true := by
  decide

end UserSetup
